import Mathlib

/-!
Verification development for the exactobar repository: a shallow embedding of
the provider usage normalization (exactobar-providers/src/synthetic/api.rs),
the tray staleness computation (exactobar-app/src/tray.rs), the usage menu
rendering (exactobar-app/src/menu/usage.rs, card.rs), and the theme gradient
(exactobar-app/src/theme.rs).

Modelling conventions:
- Rust f64 arithmetic is modelled over ℚ (the concrete values exercised by the
  spec's scenarios are exact in both); i64 is modelled as Int.
- Timestamps (chrono DateTime of Utc) are modelled as Int nanoseconds since the
  Unix epoch; chrono Duration is likewise Int nanoseconds.
- Network and process effects are modelled by passing the outcome of the one
  HTTP call as an explicit value.
-/

namespace Exactobar

-- ============================================================================
-- Core usage model.
-- Modelled from the spec: the exactobar-core crate (UsageSnapshot, UsageWindow,
-- ProviderIdentity, ProviderKind, LoginMethod, FetchSource) is not among the
-- given source files; these shapes follow spec section 3 and their use in
-- synthetic/api.rs, menu/usage.rs and menu/card.rs.
-- ============================================================================

/-- Closed enumeration of supported providers (spec section 3); the claims only
exercise the Synthetic variant. -/
inductive ProviderKind where
  | Synthetic
deriving DecidableEq, Repr

/-- Login method recorded in a provider identity (spec section 3). -/
inductive LoginMethod where
  | ApiKey
  | OAuth
  | CliSession
deriving DecidableEq, Repr

/-- Source a snapshot was fetched from (spec section 3). -/
inductive FetchSource where
  | Api
  | Cli
  | Cache
deriving DecidableEq, Repr

/-- One quota window (spec section 3). `resets_at` is Int nanoseconds since the
Unix epoch, UTC. -/
structure UsageWindow where
  used_percent : ℚ
  window_minutes : Option Int
  resets_at : Option Int
  reset_description : Option String
deriving DecidableEq, Repr

/-- Who is authenticated for a provider (spec section 3). -/
structure ProviderIdentity where
  provider : ProviderKind
  account_email : Option String
  plan_name : Option String
  login_method : Option LoginMethod
deriving DecidableEq, Repr

/-- Fresh identity for a provider, all optional fields empty
(ProviderIdentity::new). -/
def ProviderIdentity.new (k : ProviderKind) : ProviderIdentity :=
  { provider := k, account_email := none, plan_name := none, login_method := none }

/-- Cached truth for one provider at one point in time (spec section 3). -/
structure UsageSnapshot where
  primary : Option UsageWindow
  secondary : Option UsageWindow
  tertiary : Option UsageWindow
  search : Option UsageWindow
  identity : Option ProviderIdentity
  fetch_source : FetchSource
  updated_at : Int
deriving DecidableEq, Repr

/-- Modelled from the spec: UsageSnapshot::new of exactobar-core builds an
empty snapshot, every optional field none, with updated_at set to the fetch
completion time (spec section 3: updated_at is always the fetch completion
time); the fetch source default is irrelevant to the claims because
to_snapshot overwrites it. -/
def UsageSnapshot.new (now : Int) : UsageSnapshot :=
  { primary := none, secondary := none, tertiary := none, search := none,
    identity := none, fetch_source := FetchSource.Cache, updated_at := now }

-- ============================================================================
-- RFC3339 timestamp parsing.
-- Modelled from the spec: chrono DateTime::parse_from_rfc3339 followed by
-- with_timezone(&Utc) is an external dependency of synthetic/api.rs; the spec
-- says absolute reset timestamps are parsed from the provider's native
-- timestamp encoding (ISO 8601 / RFC3339) into UTC. The model parses
-- "YYYY-MM-DDTHH:MM:SS(.fraction)?(Z|+HH:MM|-HH:MM)" with range validation and
-- returns nanoseconds since the Unix epoch, UTC.
-- ============================================================================

/-- Value of a decimal digit character, none for a non-digit. -/
def digitVal (c : Char) : Option Nat :=
  if c.isDigit then some (c.toNat - 48) else none

/-- Read exactly n decimal digits from the front of the character list,
accumulating their value. -/
def readNDigitsAux : Nat → Nat → List Char → Option (Nat × List Char)
  | 0, acc, cs => some (acc, cs)
  | n + 1, acc, c :: cs =>
    match digitVal c with
    | some d => readNDigitsAux n (acc * 10 + d) cs
    | none => none
  | _ + 1, _, [] => none

/-- Read exactly n decimal digits as a number. -/
def readNDigits (n : Nat) (cs : List Char) : Option (Nat × List Char) :=
  readNDigitsAux n 0 cs

/-- Consume one expected character. -/
def expectChar (c : Char) : List Char → Option (List Char)
  | [] => none
  | x :: xs => if x == c then some xs else none

/-- Split off the maximal run of leading digit characters. -/
def spanDigits : List Char → List Char × List Char
  | [] => ([], [])
  | c :: cs =>
    if c.isDigit then
      let p := spanDigits cs
      (c :: p.1, p.2)
    else ([], c :: cs)

/-- Convert a fractional-second digit string to nanoseconds, using the first
nine digits (further digits only add precision below a nanosecond). -/
def fracToNanos (ds : List Char) : Nat :=
  let first9 := ds.take 9
  let v := first9.foldl (fun a c => a * 10 + (c.toNat - 48)) 0
  v * 10 ^ (9 - first9.length)

/-- Parse the timezone suffix: Z (or z) for UTC, or a +HH:MM / -HH:MM offset,
returned in minutes. -/
def parseOffset : List Char → Option (Int × List Char)
  | [] => none
  | c :: cs =>
    if c == 'Z' || c == 'z' then some (0, cs)
    else if c == '+' || c == '-' then
      match readNDigits 2 cs with
      | none => none
      | some (hh, cs1) =>
        match expectChar ':' cs1 with
        | none => none
        | some cs2 =>
          match readNDigits 2 cs2 with
          | none => none
          | some (mm, cs3) =>
            if hh ≤ 23 && mm ≤ 59 then
              let total : Int := (hh : Int) * 60 + (mm : Int)
              some ((if c == '+' then total else -total), cs3)
            else none
    else none

/-- Gregorian leap year test. -/
def isLeapYear (y : Nat) : Bool :=
  y % 4 == 0 && (y % 100 != 0 || y % 400 == 0)

/-- Number of days in a month of a given year. -/
def daysInMonth (y m : Nat) : Nat :=
  if m == 2 then (if isLeapYear y then 29 else 28)
  else if m == 4 || m == 6 || m == 9 || m == 11 then 30
  else 31

/-- Days from the civil date (y, m, d) to 1970-01-01 (days_from_civil
algorithm over floor division). -/
def daysFromCivil (y m d : Int) : Int :=
  let yy := if m ≤ 2 then y - 1 else y
  let era := yy / 400
  let yoe := yy - era * 400
  let mp := (m + 9) % 12
  let doy := (153 * mp + 2) / 5 + d - 1
  let doe := yoe * 365 + yoe / 4 - yoe / 100 + doy
  era * 146097 + doe - 719468

/-- Nanoseconds since the Unix epoch of a UTC civil time. -/
def utcNanos (y m d h mi s ns : Int) : Int :=
  daysFromCivil y m d * 86400000000000 +
    (h * 3600 + mi * 60 + s) * 1000000000 + ns

/-- Parse an RFC3339 timestamp into UTC nanoseconds since the Unix epoch;
none when the string is not a valid RFC3339 timestamp. -/
def parseRFC3339 (s : String) : Option Int := do
  let cs := s.toList
  let (y, cs1) ← readNDigits 4 cs
  let cs2 ← expectChar '-' cs1
  let (mo, cs3) ← readNDigits 2 cs2
  let cs4 ← expectChar '-' cs3
  let (d, cs5) ← readNDigits 2 cs4
  let cs6 ←
    match cs5 with
    | c :: rest => if c == 'T' || c == 't' then some rest else none
    | [] => none
  let (h, cs7) ← readNDigits 2 cs6
  let cs8 ← expectChar ':' cs7
  let (mi, cs9) ← readNDigits 2 cs8
  let cs10 ← expectChar ':' cs9
  let (sec, cs11) ← readNDigits 2 cs10
  let (nanos, cs12) ←
    match cs11 with
    | c :: rest =>
      if c == '.' then
        let p := spanDigits rest
        if p.1.isEmpty then none else some (fracToNanos p.1, p.2)
      else some (0, cs11)
    | [] => some (0, cs11)
  let (off, cs13) ← parseOffset cs12
  if cs13.isEmpty && 1 ≤ mo && mo ≤ 12 && 1 ≤ d && d ≤ daysInMonth y mo &&
      h ≤ 23 && mi ≤ 59 && sec ≤ 59 then
    some (utcNanos (y : Int) (mo : Int) (d : Int) (h : Int) (mi : Int)
      (sec : Int) (nanos : Int) - off * 60000000000)
  else none

-- ============================================================================
-- Synthetic.new API client (exactobar-providers/src/synthetic/api.rs).
-- ============================================================================

/-- Subscription details from the API (struct SubscriptionInfo): request limit
per period (i64), requests used in the current period (f64, modelled over ℚ),
and the optional renewsAt string (ISO 8601). -/
structure SubscriptionInfo where
  limit : Int
  requests : ℚ
  renews_at : Option String
deriving DecidableEq, Repr

/-- Search details from the API (struct SearchInfo). -/
structure SearchInfo where
  hourly : SubscriptionInfo
deriving DecidableEq, Repr

/-- Response from the Synthetic.new quota API (struct SyntheticQuotaResponse). -/
structure SyntheticQuotaResponse where
  subscription : Option SubscriptionInfo
  search : Option SearchInfo
deriving DecidableEq, Repr

/-- Conversion of a quota response to a UsageSnapshot
(SyntheticQuotaResponse::to_snapshot). `now` stands for the clock reading that
UsageSnapshot::new records as updated_at. -/
def SyntheticQuotaResponse.to_snapshot (resp : SyntheticQuotaResponse)
    (now : Int) : UsageSnapshot :=
  let snapshot := UsageSnapshot.new now
  let snapshot := { snapshot with fetch_source := FetchSource.Api }
  match resp.subscription with
  | none => snapshot
  | some sub =>
    let used_percent : ℚ :=
      if sub.limit > 0 then (sub.requests / (sub.limit : ℚ)) * 100 else 0
    let resets_at : Option Int := sub.renews_at.bind (fun s => parseRFC3339 s)
    let identity := ProviderIdentity.new ProviderKind.Synthetic
    let identity := { identity with
      plan_name := some (toString sub.limit ++ " requests/period"),
      login_method := some LoginMethod.ApiKey }
    { snapshot with
      primary := some
        { used_percent := used_percent,
          window_minutes := some 43200,
          resets_at := resets_at,
          reset_description := none },
      identity := some identity }

/-- Typed failures of the Synthetic fetcher (enum SyntheticError of
synthetic/error.rs, whose variants appear in api.rs: ApiKeyNotFound,
HttpError, AuthenticationFailed, ApiError, ParseError; the spec's taxonomy
names them CredentialMissing, TransportError, AuthenticationFailed, ApiError,
ParseError). -/
inductive SyntheticError where
  | ApiKeyNotFound
  | HttpError (msg : String)
  | AuthenticationFailed (msg : String)
  | ApiError (msg : String)
  | ParseError (msg : String)
deriving DecidableEq, Repr

/-- API key resolution (SyntheticApiClient::get_api_key). `store` is the
keychain lookup result for the provider id, modelled from the spec:
exactobar_store::get_api_key("synthetic") returns an optional string (spec
section 6, Credential Store); `env` is the SYNTHETIC_API_KEY environment
variable. Keychain is consulted first, the environment second; both absent
yields ApiKeyNotFound. -/
def get_api_key (store env : Option String) : Except SyntheticError String :=
  match store with
  | some key => Except.ok key
  | none =>
    match env with
    | some v => Except.ok v
    | none => Except.error SyntheticError.ApiKeyNotFound

/-- Outcome of the single HTTP call issued by fetch_quota: either the
transport failed (reqwest send error), or a response arrived with a status
code, a body text, and the result of decoding the body as a quota response
(ok, or the decode error message). -/
inductive HttpResult where
  | transportFailure (msg : String)
  | response (status : Nat) (body : String)
      (decoded : Except String SyntheticQuotaResponse)
deriving Repr

/-- Range test of reqwest StatusCode::is_success: 200..=299. -/
def statusIsSuccess (status : Nat) : Bool :=
  200 ≤ status && status ≤ 299

/-- Quota fetch (SyntheticApiClient::fetch_quota) as a function of the HTTP
outcome: transport failure maps to HttpError; status 401 to
AuthenticationFailed; any other non-success status to ApiError carrying the
status and body; a success response is decoded, a decode failure mapping to
ParseError. -/
def fetch_quota (r : HttpResult) : Except SyntheticError SyntheticQuotaResponse :=
  match r with
  | HttpResult.transportFailure msg => Except.error (SyntheticError.HttpError msg)
  | HttpResult.response status body decoded =>
    if status == 401 then
      Except.error (SyntheticError.AuthenticationFailed ("API key rejected"))
    else if !statusIsSuccess status then
      Except.error (SyntheticError.ApiError
        ("HTTP " ++ toString status ++ ": " ++ body))
    else
      match decoded with
      | Except.ok resp => Except.ok resp
      | Except.error e => Except.error (SyntheticError.ParseError e)

-- ============================================================================
-- Tray staleness (exactobar-app/src/tray.rs, SystemTray::update_icon, both
-- the macOS and the Linux copy).
-- ============================================================================

/-- Modelled chrono Duration::minutes, in nanoseconds. -/
def chronoDurationMinutes (m : Int) : Int := m * 60 * 1000000000

/-- Staleness check of the macOS SystemTray::update_icon (tray.rs lines
547-551): the snapshot is stale when now minus updated_at strictly exceeds
ten minutes; an absent snapshot is never stale (is_some_and). -/
def updateIconStaleMacos (snapshot : Option UsageSnapshot) (now : Int) : Bool :=
  match snapshot with
  | none => false
  | some s => now - s.updated_at > chronoDurationMinutes 10

/-- Staleness check of the Linux SystemTray::update_icon (tray.rs lines
1192-1196), textually identical to the macOS copy. -/
def updateIconStaleLinux (snapshot : Option UsageSnapshot) (now : Int) : Bool :=
  match snapshot with
  | none => false
  | some s => now - s.updated_at > chronoDurationMinutes 10

-- ============================================================================
-- Usage menu rendering (exactobar-app/src/menu/usage.rs).
-- ============================================================================

/-- HSLA color as produced by gpui hsla (h, s, l, a floats, modelled over ℚ). -/
structure Hsla where
  h : ℚ
  s : ℚ
  l : ℚ
  a : ℚ
deriving DecidableEq, Repr

/-- Constructor mirroring the gpui hsla helper function. -/
def hsla (h s l a : ℚ) : Hsla := { h := h, s := s, l := l, a := a }

/-- One usage metric row datum (struct UsageMetric of menu/usage.rs). -/
structure UsageMetric where
  title : String
  used_percent : ℚ
  resets_at : Option Int
  reset_description : Option String
  show_used : Bool
  show_absolute : Bool
deriving DecidableEq, Repr

/-- Relative duration text of format_reset_time: total minutes of the positive
duration, split into hours and minutes; hours are omitted when zero. -/
def relativeResetText (durationNanos : Int) : String :=
  let totalMinutes := durationNanos.toNat / 60000000000
  let hours := totalMinutes / 60
  let minutes := totalMinutes % 60
  if hours > 0 then
    toString hours ++ "h " ++ toString minutes ++ "m"
  else
    toString minutes ++ "m"

/-- Reset-time text (UsageMetricRow::format_reset_time). `localFmt` abstracts
the chrono Local-timezone clock formatting of the absolute display mode; `now`
is Utc::now in nanoseconds. In absolute mode the text is "Resets at HH:MM"
from resets_at, none when resets_at is absent; in relative mode resets_at
yields "Resets in ..." (or "Resets soon" when not in the future), and only
when resets_at is absent does the provider's reset_description supply the
text. -/
def format_reset_time (localFmt : Int → String) (m : UsageMetric)
    (now : Int) : Option String :=
  if m.show_absolute then
    m.resets_at.map (fun resetAt => "Resets at " ++ localFmt resetAt)
  else
    match m.resets_at with
    | some resetAt =>
      if resetAt > now then
        some ("Resets in " ++ relativeResetText (resetAt - now))
      else
        some ("Resets soon")
    | none =>
      m.reset_description.map (fun d => "Resets " ++ d)

/-- Usage color gradient of menu/usage.rs (fn usage_color): green at 0,
yellow at 50, orange at 80, red at 100, piecewise linear in hue. -/
def usage_color (used_percent : ℚ) : Hsla :=
  let used := used_percent
  if used < 50 then
    let t := used / 50
    hsla ((120 - t * 60) / 360) (7/10) (45/100) 1
  else if used < 80 then
    let t := (used - 50) / 30
    hsla ((60 - t * 30) / 360) (8/10) (5/10) 1
  else
    let t := (used - 80) / 20
    hsla ((30 - t * 30) / 360) (85/100) (5/10) 1

/-- Rust f64::clamp for in-range bounds, over ℚ: below lo gives lo, above hi
gives hi, otherwise the value itself. -/
def rustClamp (x lo hi : ℚ) : ℚ :=
  if x < lo then lo else if x > hi then hi else x

/-- Capsule progress bar (struct ProgressBar of menu/usage.rs); the
constructor clamps the percentage to [0, 100]. -/
structure ProgressBar where
  percent : ℚ
  color : Hsla
deriving DecidableEq, Repr

/-- ProgressBar::new clamps the incoming percentage to [0, 100]. -/
def ProgressBar.new (percent : ℚ) (color : Hsla) : ProgressBar :=
  { percent := rustClamp percent 0 100, color := color }

/-- Fill fraction of the rendered bar (ProgressBar::into_element computes
fraction = percent / 100). -/
def ProgressBar.fillFraction (b : ProgressBar) : ℚ := b.percent / 100

/-- Data rendered by UsageMetricRow::into_element: the value behind the
percent label (its "{:.0}% used" string formatting is abstracted), the bar
fill percentage handed to ProgressBar::new, the row color, the bar, and the
reset text. -/
structure RowRender where
  percentLabelValue : ℚ
  barFillPercent : ℚ
  color : Hsla
  bar : ProgressBar
  resetText : Option String

/-- Row rendering (UsageMetricRow::into_element): the metric's used_percent is
clamped to [0, 100] and that clamped value feeds the percent label, the color
lookup and the progress-bar fill. -/
def UsageMetricRow.render (localFmt : Int → String) (m : UsageMetric)
    (now : Int) : RowRender :=
  let used_percent := rustClamp m.used_percent 0 100
  let color := usage_color used_percent
  let bar_fill_percent := used_percent
  { percentLabelValue := used_percent,
    barFillPercent := bar_fill_percent,
    color := color,
    bar := ProgressBar.new bar_fill_percent color,
    resetText := format_reset_time localFmt m now }

-- ============================================================================
-- Theme gradient (exactobar-app/src/theme.rs, fn color_for_usage).
-- ============================================================================

/-- Usage color gradient of theme.rs (pub fn color_for_usage): green at 0,
yellow at 50, orange at 80, red at 100, piecewise linear in hue. -/
def color_for_usage (used_percent : ℚ) : Hsla :=
  let used := used_percent
  if used < 50 then
    let t := used / 50
    hsla ((120 - t * 60) / 360) (7/10) (45/100) 1
  else if used < 80 then
    let t := (used - 50) / 30
    hsla ((60 - t * 30) / 360) (8/10) (5/10) 1
  else
    let t := (used - 80) / 20
    hsla ((30 - t * 30) / 360) (85/100) (5/10) 1

-- ============================================================================
-- Provider card rendering (exactobar-app/src/menu/card.rs).
-- ============================================================================

/-- Card input data (struct MenuCardData), restricted to the fields
MenuCard::into_element branches on. -/
structure MenuCardData where
  provider : ProviderKind
  provider_name : String
  email : String
  plan : Option String
  snapshot : Option UsageSnapshot
  is_refreshing : Bool
  error : Option String
deriving DecidableEq, Repr

/-- Email extraction of MenuCardData::new (card.rs lines 67-71): the account
email of the snapshot's identity, or the empty string. -/
def MenuCardData.emailFrom (snapshot : Option UsageSnapshot) : String :=
  (((snapshot.bind (fun s => s.identity)).bind
    (fun i => i.account_email)).getD (""))

/-- Plan extraction of MenuCardData::new (card.rs line 72). -/
def MenuCardData.planFrom (snapshot : Option UsageSnapshot) : Option String :=
  (snapshot.bind (fun s => s.identity)).bind (fun i => i.plan_name)

/-- One child section of the rendered card. -/
inductive CardSection where
  | header (provider_name email : String) (plan : Option String)
      (is_refreshing has_error : Bool)
  | errorSection (summary : String)
  | usageSection (snapshot : UsageSnapshot)
  | placeholder
  | actions (provider : ProviderKind)
deriving DecidableEq, Repr

/-- Test for a usage-metrics section. -/
def CardSection.isUsage : CardSection → Bool
  | CardSection.usageSection _ => true
  | _ => false

/-- Test for an error section. -/
def CardSection.isError : CardSection → Bool
  | CardSection.errorSection _ => true
  | _ => false

/-- Card rendering (MenuCard::into_element): header first; then the error
section when an error is recorded, else the usage metrics when a snapshot
exists, else a placeholder when not refreshing; action buttons last. -/
def MenuCard.sections (data : MenuCardData) : List CardSection :=
  let headerSec := CardSection.header data.provider_name data.email data.plan
    data.is_refreshing data.error.isSome
  let middle :=
    match data.error with
    | some err => [CardSection.errorSection err]
    | none =>
      match data.snapshot with
      | some snap => [CardSection.usageSection snap]
      | none => if !data.is_refreshing then [CardSection.placeholder] else []
  headerSec :: middle ++ [CardSection.actions data.provider]

-- ============================================================================
-- Helper lemmas.
-- ============================================================================

/-- Bounds of rustClamp: for lo ≤ hi, the clamped value lies within [lo, hi]. -/
theorem rustClamp_mem (x lo hi : ℚ) (h : lo ≤ hi) :
    lo ≤ rustClamp x lo hi ∧ rustClamp x lo hi ≤ hi := by
  unfold rustClamp
  split
  · exact ⟨le_refl lo, h⟩
  · split
    · exact ⟨h, le_refl hi⟩
    · constructor <;> linarith [lt_or_ge x lo, lt_or_ge hi x]

-- ============================================================================
-- Claim theorems.
-- ============================================================================

/-- C1: for every quota response carrying a subscription, to_snapshot produces
a primary window whose used_percent equals requests / limit * 100 when
limit > 0 and is exactly 0 when limit ≤ 0 (the guard, not a division, handles
limit ≤ 0), and whose resets_at is the renewsAt string parsed as RFC3339 into
UTC; the response with limit 100, requests 50, renewsAt
"2025-09-21T14:36:14.288Z" yields used_percent 50 and resets_at
2025-09-21T14:36:14.288Z UTC, and the response with limit 0, requests 0
yields used_percent 0. -/
theorem to_snapshot_primary_window_correct :
    (∀ (sub : SubscriptionInfo) (se : Option SearchInfo) (now : Int),
      ∃ w : UsageWindow,
        (SyntheticQuotaResponse.to_snapshot ⟨some sub, se⟩ now).primary = some w ∧
        (sub.limit > 0 → w.used_percent = sub.requests / (sub.limit : ℚ) * 100) ∧
        (sub.limit ≤ 0 → w.used_percent = 0) ∧
        w.resets_at = sub.renews_at.bind (fun s => parseRFC3339 s)) ∧
    (∃ w : UsageWindow,
      (SyntheticQuotaResponse.to_snapshot
        ⟨some ⟨100, 50, some ("2025-09-21T14:36:14.288Z")⟩, none⟩ 0).primary = some w ∧
      w.used_percent = 50 ∧
      w.resets_at = some (utcNanos 2025 9 21 14 36 14 288000000)) ∧
    (∃ w : UsageWindow,
      (SyntheticQuotaResponse.to_snapshot ⟨some ⟨0, 0, none⟩, none⟩ 0).primary = some w ∧
      w.used_percent = 0) := by
  refine ⟨?_, ?_, ?_⟩
  · intro sub se now
    refine ⟨_, rfl, ?_, ?_, rfl⟩
    · intro h
      simp only [if_pos h]
    · intro h
      simp only [if_neg (by omega : ¬ sub.limit > 0)]
  · refine ⟨_, rfl, ?_, ?_⟩
    · norm_num
    · decide
  · refine ⟨_, rfl, ?_⟩
    norm_num

/-- Witness for C1 at a concrete subscription with limit 100 and requests 50. -/
theorem to_snapshot_primary_window_correct_witness :
    ∃ w : UsageWindow,
      (SyntheticQuotaResponse.to_snapshot ⟨some ⟨100, 50, none⟩, none⟩ 0).primary =
        some w ∧ w.used_percent = (50 : ℚ) / ((100 : Int) : ℚ) * 100 := by
  obtain ⟨w, hw, hpos, _, _⟩ :=
    to_snapshot_primary_window_correct.1 ⟨100, 50, none⟩ none 0
  exact ⟨w, hw, hpos (by norm_num)⟩

/-- C2: credential resolution consults the keychain store first (its key is
returned whatever the environment holds), falls back to the environment
variable when the store is empty, and reports the dedicated ApiKeyNotFound
error when both are absent; that error is distinct from the network and parse
failure kinds. -/
theorem get_api_key_lookup_order :
    (∀ (env : Option String) (k : String), get_api_key (some k) env = Except.ok k) ∧
    (∀ v : String, get_api_key none (some v) = Except.ok v) ∧
    get_api_key none none = Except.error SyntheticError.ApiKeyNotFound ∧
    (∀ m : String,
      SyntheticError.ApiKeyNotFound ≠ SyntheticError.HttpError m ∧
      SyntheticError.ApiKeyNotFound ≠ SyntheticError.ParseError m ∧
      SyntheticError.ApiKeyNotFound ≠ SyntheticError.ApiError m) := by
  refine ⟨fun _ _ => rfl, fun _ => rfl, rfl, ?_⟩
  intro m
  refine ⟨?_, ?_, ?_⟩ <;> intro h <;> cases h

/-- Witness for C2: with a stored key present, the stored key wins over the
environment value, and the missing-credential error is distinct from the
transport error at a concrete message. -/
theorem get_api_key_lookup_order_witness :
    get_api_key (some ("stored-key")) (some ("env-key")) =
      Except.ok ("stored-key") ∧
    SyntheticError.ApiKeyNotFound ≠ SyntheticError.HttpError ("timeout") :=
  ⟨get_api_key_lookup_order.1 (some ("env-key")) ("stored-key"),
    (get_api_key_lookup_order.2.2.2 ("timeout")).1⟩

/-- C3: fetch_quota classifies every failure into the taxonomy: HTTP 401
yields AuthenticationFailed, every other non-success status yields ApiError
carrying the status and body, a transport failure yields HttpError, a success
response whose body cannot be decoded yields ParseError, and a success result
is only ever returned for a 2xx status. -/
theorem fetch_quota_error_taxonomy :
    (∀ (body : String) (decoded : Except String SyntheticQuotaResponse),
      fetch_quota (HttpResult.response 401 body decoded) =
        Except.error (SyntheticError.AuthenticationFailed ("API key rejected"))) ∧
    (∀ (status : Nat) (body : String) (decoded : Except String SyntheticQuotaResponse),
      status ≠ 401 → ¬ (200 ≤ status ∧ status ≤ 299) →
      fetch_quota (HttpResult.response status body decoded) =
        Except.error (SyntheticError.ApiError
          ("HTTP " ++ toString status ++ ": " ++ body))) ∧
    (∀ msg : String,
      fetch_quota (HttpResult.transportFailure msg) =
        Except.error (SyntheticError.HttpError msg)) ∧
    (∀ (status : Nat) (body e : String), 200 ≤ status → status ≤ 299 →
      fetch_quota (HttpResult.response status body (Except.error e)) =
        Except.error (SyntheticError.ParseError e)) ∧
    (∀ (status : Nat) (body : String)
      (decoded : Except String SyntheticQuotaResponse) (resp : SyntheticQuotaResponse),
      fetch_quota (HttpResult.response status body decoded) = Except.ok resp →
      200 ≤ status ∧ status ≤ 299) := by
  refine ⟨fun _ _ => rfl, ?_, fun _ => rfl, ?_, ?_⟩
  · intro status body decoded h1 h2
    have hb : (status == 401) = false := by simp [h1]
    have hs : statusIsSuccess status = false := by
      simp only [statusIsSuccess, Bool.and_eq_false_iff, decide_eq_false_iff_not]
      omega
    simp [fetch_quota, hb, hs]
  · intro status body e h1 h2
    have hb : (status == 401) = false := by simp; omega
    have hs : statusIsSuccess status = true := by
      simp only [statusIsSuccess, Bool.and_eq_true, decide_eq_true_eq]
      omega
    simp [fetch_quota, hb, hs]
  · intro status body decoded resp h
    by_cases h1 : (status == 401) = true
    · simp [fetch_quota, h1] at h
    · by_cases h2 : statusIsSuccess status = true
      · simpa only [statusIsSuccess, Bool.and_eq_true, decide_eq_true_eq] using h2
      · have hb1 : (status == 401) = false := by
          cases hx : (status == 401) <;> simp_all
        have hb2 : statusIsSuccess status = false := by
          cases hx : statusIsSuccess status <;> simp_all
        simp [fetch_quota, hb1, hb2] at h

/-- Witness for C3: a 500 response with body text maps to ApiError carrying
the status and body. -/
theorem fetch_quota_error_taxonomy_witness :
    fetch_quota (HttpResult.response 500 ("oops") (Except.error ("x"))) =
      Except.error (SyntheticError.ApiError ("HTTP 500: oops")) :=
  fetch_quota_error_taxonomy.2.1 500 ("oops") (Except.error ("x"))
    (by decide) (by decide)

/-- C4: when the renewsAt string is absent or is not a valid RFC3339
timestamp, to_snapshot still succeeds and the primary window simply has no
reset info (resets_at = none) while used_percent and the other fields are
computed normally. -/
theorem to_snapshot_parse_failure_not_fatal :
    ∀ (sub : SubscriptionInfo) (se : Option SearchInfo) (now : Int),
      (sub.renews_at = none ∨
        ∃ s, sub.renews_at = some s ∧ parseRFC3339 s = none) →
      ∃ w : UsageWindow,
        (SyntheticQuotaResponse.to_snapshot ⟨some sub, se⟩ now).primary = some w ∧
        w.resets_at = none ∧
        w.used_percent =
          (if sub.limit > 0 then sub.requests / (sub.limit : ℚ) * 100 else 0) ∧
        w.window_minutes = some 43200 ∧
        w.reset_description = none := by
  intro sub se now h
  refine ⟨_, rfl, ?_, rfl, rfl, rfl⟩
  rcases h with h | ⟨s, hs, hp⟩
  · simp [h]
  · simp [hs, hp]

/-- Witness for C4 at the unparsable renewsAt string "not-a-date". -/
theorem to_snapshot_parse_failure_not_fatal_witness :
    ∃ w : UsageWindow,
      (SyntheticQuotaResponse.to_snapshot
        ⟨some ⟨100, 50, some ("not-a-date")⟩, none⟩ 0).primary = some w ∧
      w.resets_at = none ∧
      w.used_percent =
        (if (100 : Int) > 0 then (50 : ℚ) / ((100 : Int) : ℚ) * 100 else 0) ∧
      w.window_minutes = some 43200 ∧
      w.reset_description = none :=
  to_snapshot_parse_failure_not_fatal ⟨100, 50, some ("not-a-date")⟩ none 0
    (Or.inr ⟨"not-a-date", rfl, by decide⟩)

/-- C5: staleness is computed at read time as now minus updated_at strictly
greater than ten minutes; the macOS and Linux update_icon checks are the same
function, a snapshot aged eleven minutes is stale, one aged nine minutes is
not, and one aged exactly ten minutes is not (the boundary is strict). -/
theorem staleness_strict_ten_minute_boundary :
    (∀ (snapshot : Option UsageSnapshot) (now : Int),
      updateIconStaleMacos snapshot now = updateIconStaleLinux snapshot now) ∧
    (∀ (s : UsageSnapshot) (now : Int),
      (updateIconStaleMacos (some s) now = true ↔
        now - s.updated_at > chronoDurationMinutes 10) ∧
      (now - s.updated_at = chronoDurationMinutes 11 →
        updateIconStaleMacos (some s) now = true) ∧
      (now - s.updated_at = chronoDurationMinutes 9 →
        updateIconStaleMacos (some s) now = false) ∧
      (now - s.updated_at = chronoDurationMinutes 10 →
        updateIconStaleMacos (some s) now = false)) := by
  constructor
  · intro snapshot now
    cases snapshot <;> rfl
  · intro s now
    have hbase : updateIconStaleMacos (some s) now = true ↔
        now - s.updated_at > chronoDurationMinutes 10 := by
      simp [updateIconStaleMacos]
    refine ⟨hbase, ?_, ?_, ?_⟩
    · intro h
      rw [hbase]
      rw [h]
      simp [chronoDurationMinutes]
    · intro h
      rw [Bool.eq_false_iff, Ne, hbase, h]
      simp [chronoDurationMinutes]
    · intro h
      rw [Bool.eq_false_iff, Ne, hbase, h]
      simp

/-- Witness for C5: a snapshot taken at time 0 read eleven minutes later is
stale. -/
theorem staleness_strict_ten_minute_boundary_witness :
    updateIconStaleMacos (some (UsageSnapshot.new 0)) 660000000000 = true :=
  (staleness_strict_ten_minute_boundary.2 (UsageSnapshot.new 0)
    660000000000).2.1 (by decide)

/-- C6: format_reset_time computes the reset text from resets_at whenever it
is present, ignoring reset_description entirely; reset_description supplies
the text only when resets_at is none and only in the relative display mode,
while the absolute mode with no timestamp yields no text. -/
theorem format_reset_time_resets_at_precedence :
    (∀ (localFmt : Int → String) (m : UsageMetric) (now t : Int),
      m.resets_at = some t →
      ∀ d : Option String,
        format_reset_time localFmt { m with reset_description := d } now =
          format_reset_time localFmt m now) ∧
    (∀ (localFmt : Int → String) (m : UsageMetric) (now : Int),
      m.resets_at = none → m.show_absolute = false →
      format_reset_time localFmt m now =
        m.reset_description.map (fun d => "Resets " ++ d)) ∧
    (∀ (localFmt : Int → String) (m : UsageMetric) (now : Int),
      m.resets_at = none → m.show_absolute = true →
      format_reset_time localFmt m now = none) := by
  refine ⟨?_, ?_, ?_⟩
  · intro localFmt m now t h d
    simp only [format_reset_time, h]
  · intro localFmt m now h habs
    simp only [format_reset_time, h, habs]
    rfl
  · intro localFmt m now h habs
    simp only [format_reset_time, h, habs]
    rfl

/-- Witness for C6: with a present resets_at, replacing the description does
not change the text. -/
theorem format_reset_time_resets_at_precedence_witness :
    format_reset_time (fun _ => "3:00 PM")
      { title := "Session", used_percent := 50, resets_at := some 60000000000,
        reset_description := some ("in a while"), show_used := true,
        show_absolute := false } 0 =
    format_reset_time (fun _ => "3:00 PM")
      { title := "Session", used_percent := 50, resets_at := some 60000000000,
        reset_description := none, show_used := true,
        show_absolute := false } 0 := by
  have h := format_reset_time_resets_at_precedence.1 (fun _ => "3:00 PM")
    { title := "Session", used_percent := 50, resets_at := some 60000000000,
      reset_description := none, show_used := true, show_absolute := false }
    0 60000000000 rfl (some ("in a while"))
  exact h

/-- Concrete card data holding both a last-known-good snapshot and a recorded
error, as a provider's cache entry can after a failed refresh. -/
def cardDataErrorAndSnapshot : MenuCardData :=
  { provider := ProviderKind.Synthetic, provider_name := "Synthetic",
    email := "", plan := some ("100 requests/period"),
    snapshot := some (UsageSnapshot.new 0), is_refreshing := false,
    error := some ("HTTP 500: oops") }

/-- C7 counterexample: a card whose data holds both a snapshot and an error
renders no usage-metrics section at all — the error section replaces the
usage data rather than appearing alongside it, so the claim as stated is
false. -/
theorem card_error_alongside_usage_counterexample :
    cardDataErrorAndSnapshot.snapshot.isSome = true ∧
    cardDataErrorAndSnapshot.error.isSome = true ∧
    (MenuCard.sections cardDataErrorAndSnapshot).filter CardSection.isUsage = [] ∧
    (MenuCard.sections cardDataErrorAndSnapshot).filter CardSection.isError ≠ [] := by
  refine ⟨rfl, rfl, rfl, ?_⟩
  decide

/-- C7 amended: when an error is recorded the card renders the header, the
error section and the action buttons, and omits the usage-metrics section
even when a last-known-good snapshot exists; only the header (carrying the
identity fields extracted from the snapshot) remains displayed alongside the
error. -/
theorem card_error_section_replaces_usage :
    ∀ (data : MenuCardData) (e : String), data.error = some e →
      MenuCard.sections data =
        [CardSection.header data.provider_name data.email data.plan
          data.is_refreshing true,
         CardSection.errorSection e,
         CardSection.actions data.provider] ∧
      (MenuCard.sections data).filter CardSection.isUsage = [] := by
  intro data e h
  constructor
  · simp [MenuCard.sections, h]
  · simp [MenuCard.sections, h, CardSection.isUsage, CardSection.isError,
      List.filter]

/-- Witness for the amended C7 at the concrete card data. -/
theorem card_error_section_replaces_usage_witness :
    MenuCard.sections cardDataErrorAndSnapshot =
      [CardSection.header ("Synthetic") ("") (some ("100 requests/period"))
        false true,
       CardSection.errorSection ("HTTP 500: oops"),
       CardSection.actions ProviderKind.Synthetic] ∧
    (MenuCard.sections cardDataErrorAndSnapshot).filter CardSection.isUsage = [] :=
  card_error_section_replaces_usage cardDataErrorAndSnapshot
    ("HTTP 500: oops") rfl

/-- C8: used_percent is not clamped at construction — normalization can
produce values above 100 or below 0 — while presentation clamps: the row
renderer feeds the percent label, the color and the bar fill from the value
clamped to [0, 100], and the progress-bar fill fraction always lies in
[0, 1]. -/
theorem used_percent_clamped_at_presentation_only :
    (∀ (localFmt : Int → String) (m : UsageMetric) (now : Int),
      (UsageMetricRow.render localFmt m now).percentLabelValue =
        rustClamp m.used_percent 0 100 ∧
      0 ≤ (UsageMetricRow.render localFmt m now).percentLabelValue ∧
      (UsageMetricRow.render localFmt m now).percentLabelValue ≤ 100 ∧
      (UsageMetricRow.render localFmt m now).barFillPercent =
        rustClamp m.used_percent 0 100 ∧
      (UsageMetricRow.render localFmt m now).bar =
        ProgressBar.new (rustClamp m.used_percent 0 100)
          (usage_color (rustClamp m.used_percent 0 100)) ∧
      0 ≤ (UsageMetricRow.render localFmt m now).bar.fillFraction ∧
      (UsageMetricRow.render localFmt m now).bar.fillFraction ≤ 1) ∧
    (∀ (p : ℚ) (c : Hsla),
      0 ≤ (ProgressBar.new p c).fillFraction ∧
      (ProgressBar.new p c).fillFraction ≤ 1) ∧
    (∃ w : UsageWindow,
      (SyntheticQuotaResponse.to_snapshot ⟨some ⟨100, 150, none⟩, none⟩ 0).primary =
        some w ∧ w.used_percent = 150) ∧
    (∃ w : UsageWindow,
      (SyntheticQuotaResponse.to_snapshot ⟨some ⟨100, -50, none⟩, none⟩ 0).primary =
        some w ∧ w.used_percent = -50) := by
  have hfrac : ∀ (p : ℚ) (c : Hsla),
      0 ≤ (ProgressBar.new p c).fillFraction ∧
      (ProgressBar.new p c).fillFraction ≤ 1 := by
    intro p c
    obtain ⟨h0, h1⟩ := rustClamp_mem p 0 100 (by norm_num)
    unfold ProgressBar.new ProgressBar.fillFraction
    constructor
    · positivity
    · rw [div_le_one (by norm_num)]
      exact le_trans h1 (by norm_num)
  refine ⟨?_, hfrac, ?_, ?_⟩
  · intro localFmt m now
    obtain ⟨h0, h1⟩ := rustClamp_mem m.used_percent 0 100 (by norm_num)
    refine ⟨rfl, h0, h1, rfl, rfl, ?_⟩
    exact hfrac (rustClamp m.used_percent 0 100)
      (usage_color (rustClamp m.used_percent 0 100))
  · refine ⟨_, rfl, ?_⟩
    norm_num
  · refine ⟨_, rfl, ?_⟩
    norm_num

/-- C9: the usage gradient of menu/usage.rs and the usage gradient of
theme.rs are the same function: for every used_percent both return the
identical HSLA color, with the same breakpoints at 50 and 80. -/
theorem usage_color_eq_color_for_usage :
    ∀ q : ℚ, usage_color q = color_for_usage q :=
  fun _ => rfl

/-- C10: to_snapshot populates at most the primary window and the identity
(the secondary, tertiary and search windows are always none, even when the
response's search field is present, and the fetch source is always Api), and
a response without a subscription still yields a snapshot, with primary and
identity none. -/
theorem to_snapshot_populates_primary_only :
    (∀ (resp : SyntheticQuotaResponse) (now : Int),
      (resp.to_snapshot now).secondary = none ∧
      (resp.to_snapshot now).tertiary = none ∧
      (resp.to_snapshot now).search = none ∧
      (resp.to_snapshot now).fetch_source = FetchSource.Api ∧
      (resp.to_snapshot now).updated_at = now) ∧
    (∀ (se : Option SearchInfo) (now : Int),
      (SyntheticQuotaResponse.to_snapshot ⟨none, se⟩ now).primary = none ∧
      (SyntheticQuotaResponse.to_snapshot ⟨none, se⟩ now).identity = none) := by
  constructor
  · intro resp now
    obtain ⟨sub, se⟩ := resp
    cases sub <;> exact ⟨rfl, rfl, rfl, rfl, rfl⟩
  · intro se now
    exact ⟨rfl, rfl⟩

end Exactobar
